import Mathlib

/-!
Verification of the point-list / project-file core of
`generate-spot-drill-gcode.py` (a tkinter application that edits an ordered
list of drill-point coordinate expressions and saves/loads them as XML).

The shallow embedding below translates the state-bearing parts of the source
into pure Lean functions.  GUI widgets are modelled by the data they carry:
an `Entry` widget by its text, a `StringVar` by its string, the window title
by a string, the on-disk config file by its list of lines.  Calls whose only
effect is display (gridding/ungridding widgets, fonts, tooltips, message
boxes, background colours) are elided; every such elision is noted at the
definition it concerns.  Python list indexing (including negative indices and
IndexError) is modelled explicitly by `pyIdx`/`pyGet`/`pyModify`/`pyRemove`;
an uncaught Python exception is modelled as `Option.none`.
-/

set_option autoImplicit false

universe u

/-- Resolve a Python list index `i` against a list of length `n`:
nonnegative indices must be `< n`, negative indices count from the end
(`-1` is the last element); anything else raises `IndexError` (`none`). -/
def pyIdx (n : Nat) (i : Int) : Option Nat :=
  if 0 ≤ i then
    if i < (n : Int) then some i.toNat else none
  else
    if 0 ≤ i + (n : Int) then some (i + (n : Int)).toNat else none

/-- `l[i]` with Python index semantics. -/
def pyGet {α : Type u} (l : List α) (i : Int) : Option α :=
  match pyIdx l.length i with
  | none => none
  | some k => l.get? k

/-- Replace the element at (already resolved, in-range) position `k` by `f`
of itself; identity when `k` is past the end. -/
def listModify {α : Type u} (f : α → α) : Nat → List α → List α
  | _, [] => []
  | 0, a :: as => f a :: as
  | n + 1, a :: as => a :: listModify f n as

/-- `l[i] = f l[i]` with Python index semantics (an in-place field update of
the element, as in `self.points[idx][POINTNUMBER] = ...`). -/
def pyModify {α : Type u} (f : α → α) (i : Int) (l : List α) : Option (List α) :=
  match pyIdx l.length i with
  | none => none
  | some k => some (listModify f k l)

/-- Remove the element at (already resolved, in-range) position `k`. -/
def listRemove {α : Type u} : Nat → List α → List α
  | _, [] => []
  | 0, _ :: as => as
  | n + 1, a :: as => a :: listRemove n as

/-- `del l[i]` with Python index semantics. -/
def pyRemove {α : Type u} (l : List α) (i : Int) : Option (List α) :=
  match pyIdx l.length i with
  | none => none
  | some k => some (listRemove k l)

/-- Sentinel for "no row selected" (source line 284: `NONESELECTED = -1`). -/
def NONESELECTED : Int := -1

/-- One element of `PointsList.points`.  In the source a point is the list
`[index, xentry, yentry, check_button, checkvar]`; the two entry widgets are
modelled by the strings they hold (`x`, `y`), the point number
(`pt[POINTNUMBER]`) by `number`.  The check-button widget and its
`BooleanVar` only drive the on-screen check marks (they are written by
`select`/`deselect` calls that do not feed back into the modelled state), so
they are elided here. -/
structure Point where
  number : Int
  x : String
  y : String
deriving DecidableEq, Repr

instance : Inhabited Point := ⟨⟨0, "", ""⟩⟩

/-- The `PointsList` class state: the `points` list, `point_count`, and
`row_selected` (source lines 307-321). -/
structure PointsList where
  points : List Point
  point_count : Int
  row_selected : Int
deriving DecidableEq, Repr

/-- `PointsList.__init__` (source lines 318-321). -/
def PointsList.init : PointsList :=
  { points := [], point_count := 0, row_selected := NONESELECTED }

/-- `PointsList.clear` (source lines 326-329): calls
`clear_points_from_grid` (display only, elided) and resets `points` and
`point_count`.  Note the source does NOT reset `row_selected` here. -/
def PointsList.clear (self : PointsList) : PointsList :=
  { self with points := [], point_count := 0 }

/-- `PointsList.select_row` (source lines 382-394): presets `row_selected`
to `NONESELECTED`, loops over the check buttons selecting the target row's
button and deselecting the rest (pure display state, elided), then sets
`row_selected = row`.  Net effect on the modelled state: `row_selected = row`. -/
def PointsList.select_row (self : PointsList) (row : Int) : PointsList :=
  { self with row_selected := row }

/-- `PointsList.deselect_row` (source lines 396-400): sets `row_selected` to
`NONESELECTED` unconditionally; the `row` argument is never read. -/
def PointsList.deselect_row (self : PointsList) (row : Int) : PointsList :=
  { self with row_selected := NONESELECTED }

/-- `PointsList.place_points_on_grid` (source lines 452-465): re-grids every
point row (display only, elided) and then sets `row_selected = NONESELECTED`
(source line 465). -/
def PointsList.place_points_on_grid (self : PointsList) : PointsList :=
  { self with row_selected := NONESELECTED }

/-- `PointsList.append_point` (source lines 335-376): increments
`point_count`, creates entry widgets holding `x` and `y` and a check button
(widget creation, gridding and the `<FocusOut>` binding are display only,
elided), appends the new point with `index = point_count - 1`, and finally
selects the new row via `select_row(index)` (source line 376). -/
def PointsList.append_point (self : PointsList) (x y : String) : PointsList :=
  let point_count := self.point_count + 1
  let index := point_count - 1
  let self1 : PointsList :=
    { self with point_count := point_count,
                points := self.points ++ [{ number := index, x := x, y := y }] }
  self1.select_row index

/-- `PointsList.read_point` (source lines 439-444): returns the point
number and the texts of the two entry widgets (the selection flag, also
returned by the source, is check-box display state, elided). -/
def PointsList.read_point (self : PointsList) (ptnum : Int) : Option (Int × String × String) :=
  match pyGet self.points ptnum with
  | none => none
  | some p => some (p.number, p.x, p.y)

/-- The `for pt in reversed(self.points)` loop of `PointsList.delete_point`
(source lines 420-434).  `fuel` is the position about to be visited plus
one; the iterator starts at the last position and walks down.  At each
visited point `pt`: if `ptnum == pt[POINTNUMBER]`, perform
`del self.points[ptnum]`, decrement `point_count` (returned here as the
`true` flag) and break; otherwise copy the neighbouring check button
(display only, elided) and execute
`self.points[idx][POINTNUMBER] = idx - 1` where `idx = pt[POINTNUMBER]`,
then continue with the previous position. -/
def PointsList.delete_loop (ptnum : Int) : Nat → List Point → Option (List Point × Bool)
  | 0, pts => some (pts, false)
  | fuel + 1, pts =>
    match pyGet pts (fuel : Int) with
    | none => none
    | some pt =>
      if ptnum == pt.number then
        match pyRemove pts ptnum with
        | none => none
        | some pts2 => some (pts2, true)
      else
        match pyModify (fun q => { q with number := pt.number - 1 }) pt.number pts with
        | none => none
        | some pts2 => PointsList.delete_loop ptnum fuel pts2

/-- `PointsList.delete_point` (source lines 402-437): returns unchanged if
`row_selected == NONESELECTED`; otherwise clears the grid (display only,
elided), runs the reverse traversal `delete_loop` (which performs the
deletion and renumbering and decrements `point_count` when the deletion
fired), and finally calls `place_points_on_grid`, which sets
`row_selected = NONESELECTED`. -/
def PointsList.delete_point (self : PointsList) (ptnum : Int) : Option PointsList :=
  if self.row_selected == NONESELECTED then some self
  else
    match PointsList.delete_loop ptnum self.points.length self.points with
    | none => none
    | some (pts, deleted) =>
      some (PointsList.place_points_on_grid
        { self with points := pts,
                    point_count := if deleted then self.point_count - 1 else self.point_count })

/-- `PointsList.move_point_forward` (source lines 467-489): no-op when
`ptnum == point_count - 1`; otherwise snapshots the x and y texts of
`points[ptnum]`, copies the x then the y text of `points[ptnum+1]` into
`points[ptnum]`, writes the snapshots into `points[ptnum+1]`
(each assignment reads the current list, in source order), re-grids
(`place_points_on_grid`, which sets `row_selected = NONESELECTED`), and
selects row `ptnum + 1`. -/
def PointsList.move_point_forward (self : PointsList) (ptnum : Int) : Option PointsList :=
  if ptnum == self.point_count - 1 then some self
  else
    match pyGet self.points ptnum with
    | none => none
    | some snap =>
      let xtemp := snap.x
      let ytemp := snap.y
      match pyGet self.points (ptnum + 1) with
      | none => none
      | some nxt1 =>
        match pyModify (fun p => { p with x := nxt1.x }) ptnum self.points with
        | none => none
        | some pts1 =>
          match pyGet pts1 (ptnum + 1) with
          | none => none
          | some nxt2 =>
            match pyModify (fun p => { p with y := nxt2.y }) ptnum pts1 with
            | none => none
            | some pts2 =>
              match pyModify (fun p => { p with x := xtemp }) (ptnum + 1) pts2 with
              | none => none
              | some pts3 =>
                match pyModify (fun p => { p with y := ytemp }) (ptnum + 1) pts3 with
                | none => none
                | some pts4 =>
                  some ((PointsList.place_points_on_grid
                    { self with points := pts4 }).select_row (ptnum + 1))

/-- `PointsList.move_point_backward` (source lines 491-512): no-op when
`ptnum == 0`; otherwise snapshots the x and y texts of `points[ptnum]`,
copies the x then the y text of `points[ptnum-1]` into `points[ptnum]`,
writes the snapshots into `points[ptnum-1]`, re-grids
(`place_points_on_grid`), and selects row `ptnum - 1`. -/
def PointsList.move_point_backward (self : PointsList) (ptnum : Int) : Option PointsList :=
  if ptnum == 0 then some self
  else
    match pyGet self.points ptnum with
    | none => none
    | some snap =>
      let xtemp := snap.x
      let ytemp := snap.y
      match pyGet self.points (ptnum - 1) with
      | none => none
      | some prv1 =>
        match pyModify (fun p => { p with x := prv1.x }) ptnum self.points with
        | none => none
        | some pts1 =>
          match pyGet pts1 (ptnum - 1) with
          | none => none
          | some prv2 =>
            match pyModify (fun p => { p with y := prv2.y }) ptnum pts1 with
            | none => none
            | some pts2 =>
              match pyModify (fun p => { p with x := xtemp }) (ptnum - 1) pts2 with
              | none => none
              | some pts3 =>
                match pyModify (fun p => { p with y := ytemp }) (ptnum - 1) pts3 with
                | none => none
                | some pts4 =>
                  some ((PointsList.place_points_on_grid
                    { self with points := pts4 }).select_row (ptnum - 1))

/-- Outcome classification of `check_if_num`'s call into `numexpr`.
Modelled from the numexpr library (external dependency, not repository
code): `numexpr.evaluate` compiles its argument as a Python expression and
evaluation either yields a numeric value or raises one of the exceptions
caught in source lines 542-556.  The numeric value itself is not needed by
any claim and is not carried. -/
inductive NeOutcome
  | value
  | keyError
  | synError
  | zeroDivError
  | overflowError
  | typeError
deriving DecidableEq, Repr

/-- `numexpr.evaluate` on the stripped widget text.  Modelled from Python
semantics: compiling the empty string as an expression raises
`SyntaxError` unconditionally; the behaviour on nonempty expression strings
is external library behaviour and is abstracted by the parameter `ev`. -/
def ne_evaluate (ev : String → NeOutcome) (s : String) : NeOutcome :=
  if s = "" then NeOutcome.synError else ev s

/-- Result of `check_if_num`: widget background turned white (evaluation
succeeded), or turned red with the given error-box message. -/
inductive CheckResult
  | white
  | red (msg : String)
deriving DecidableEq, Repr

/-- Python `str.strip()` on the widget text: remove leading and trailing
whitespace characters (the claims only exercise the space character, where
`Char.isWhitespace` and Python's whitespace set agree). -/
def py_strip (s : String) : String :=
  ⟨((s.data.dropWhile Char.isWhitespace).reverse.dropWhile Char.isWhitespace).reverse⟩

/-- `check_if_num` (source lines 522-556): strips the widget text, hands it
to `numexpr.evaluate`, and either sets the background white (success) or
red with the matching error message (the `float(...)` call and `print` on
the success path do not affect the classification and are elided). -/
def check_if_num (ev : String → NeOutcome) (widget_text : String) : CheckResult :=
  let widget_value := py_strip widget_text
  match ne_evaluate ev widget_value with
  | NeOutcome.value => CheckResult.white
  | NeOutcome.keyError => CheckResult.red (widget_value ++ " does not evaluate to a number")
  | NeOutcome.synError => CheckResult.red (widget_value ++ " does not evaluate to a number")
  | NeOutcome.zeroDivError => CheckResult.red (widget_value ++ " has a divide by zero error")
  | NeOutcome.overflowError => CheckResult.red (widget_value ++ " overflows")
  | NeOutcome.typeError => CheckResult.red (widget_value ++ " is an invalid expression")

/-- The global `config` dictionary (source line 299). -/
structure Config where
  default_data_path : String
  default_data_file : String
  default_gcode_path : String
  default_gcode_file : String
deriving DecidableEq, Repr

/-- The mutable program state outside the `PointsList` object: the window
title, the `config` dictionary, the on-disk config file (as its list of
lines), the two option-menu `StringVar`s, the two entry widgets for depth
and plunge rate, and the global `plist`. -/
structure AppState where
  window_title : String
  config : Config
  config_file : List String
  inch_mm_select_var : String
  abs_rel_select_var : String
  depth_entry : String
  plunge_entry : String
  plist : PointsList
deriving DecidableEq, Repr

/-- `update_config_file` (source lines 903-915): rewrites the config file
with four lines built from the `config` dictionary.  Note the fourth line
is `config["default_gcode_path"]` again (source line 911), not
`default_gcode_file`; `user_home_path` is computed but never used. -/
def update_config_file (st : AppState) : AppState :=
  { st with config_file :=
      [st.config.default_data_path ++ "\n",
       st.config.default_data_file ++ "\n",
       st.config.default_gcode_path ++ "\n",
       st.config.default_gcode_path] }

/-- A parsed data file as the XML tree exposes it to `open_pressed`: each
`find` either misses (element absent, `none`) or yields the element's text.
Elements that are present but textually empty do not arise from files this
program writes (blank fields are saved as a single space) and are outside
this model. -/
structure PartialDoc where
  unitsel : Option String
  modesel : Option String
  depthexpr : Option String
  plungeexpr : Option String
  points : Option (List (String × String))
deriving DecidableEq, Repr

/-- A file handed to `Et.parse`: either it raises `ParseError` (not
well-formed XML) or it parses into a tree. -/
inductive XmlFile
  | malformed
  | doc (d : PartialDoc)
deriving DecidableEq, Repr

/-- A fully-populated data file, as written by `save_data`. -/
structure SpotDrillDoc where
  unitsel : String
  modesel : String
  depthexpr : String
  plungeexpr : String
  points : List (String × String)
deriving DecidableEq, Repr

/-- Re-reading a file written by `save_data`: every element is present. -/
def SpotDrillDoc.toFile (d : SpotDrillDoc) : XmlFile :=
  XmlFile.doc
    { unitsel := some d.unitsel, modesel := some d.modesel,
      depthexpr := some d.depthexpr, plungeexpr := some d.plungeexpr,
      points := some d.points }

/-- How `open_pressed` ends: user declined the confirmation box; XML
`ParseError` caught (error box, early return); uncaught `AttributeError`
from calling `.text`/`.findall` on a missing element (`find` returned
`None`); or normal completion. -/
inductive LoadOutcome
  | cancelled
  | parse_error
  | attribute_error
  | ok
deriving DecidableEq, Repr

/-- `open_pressed` (source lines 570-633).  Inputs beyond the state: the
confirmation-box answer, the dialog's chosen file as directory and base
name (`os.path.split` of the returned path; the full path string is their
`/`-join), and the file's parse behaviour.  In source order: ask for
confirmation; set the window title; update `config` with the split path;
rewrite the config file; parse (on `ParseError`: error box and return);
read `unitsel` and `modesel` into the two `StringVar`s; clear and refill
the depth and plunge entries (each entry is cleared *before* the element's
`.text` is read, so a missing element aborts with the entry already
cleared); `plist.clear()`; then iterate the points, appending each.  A
missing element makes the `.text` / `.findall` access raise
`AttributeError`, aborting with the mutations made so far in place. -/
def open_pressed (st : AppState) (confirm : Bool) (dir base : String) (file : XmlFile) :
    AppState × LoadOutcome :=
  if !confirm then (st, LoadOutcome.cancelled)
  else
    let open_file := dir ++ "/" ++ base
    let st1 := { st with window_title := "Spot Drilling Tool: " ++ open_file }
    let st2 := { st1 with config :=
      { st1.config with default_data_path := dir, default_data_file := base } }
    let st3 := update_config_file st2
    match file with
    | XmlFile.malformed => (st3, LoadOutcome.parse_error)
    | XmlFile.doc d =>
      match d.unitsel with
      | none => (st3, LoadOutcome.attribute_error)
      | some u =>
        let st4 := { st3 with inch_mm_select_var := u }
        match d.modesel with
        | none => (st4, LoadOutcome.attribute_error)
        | some m =>
          let st5 := { st4 with abs_rel_select_var := m }
          match d.depthexpr with
          | none => ({ st5 with depth_entry := "" }, LoadOutcome.attribute_error)
          | some de =>
            let st6 := { st5 with depth_entry := de }
            match d.plungeexpr with
            | none => ({ st6 with plunge_entry := "" }, LoadOutcome.attribute_error)
            | some pe =>
              let st7 := { st6 with plunge_entry := pe }
              let pl0 := st7.plist.clear
              match d.points with
              | none => ({ st7 with plist := pl0 }, LoadOutcome.attribute_error)
              | some ps =>
                ({ st7 with plist :=
                    ps.foldl (fun pl xy => pl.append_point xy.1 xy.2) pl0 },
                 LoadOutcome.ok)

/-- The blank-field convention of `save_data` (source lines 724-727,
730-734, 748-756): an empty entry text is written as a single space. -/
def blank_to_space (s : String) : String := if s = "" then " " else s

/-- The `for i in range(0, plist.point_count)` loop of `save_data` (source
lines 742-760): read each point in index order and record its x and y
expressions, writing a single space for an empty text.  Reading past the
end of the list (`point_count` larger than the list) raises `IndexError`
(`none`). -/
def save_data_points (pl : PointsList) : Nat → Option (List (String × String))
  | 0 => some []
  | n + 1 =>
    match save_data_points pl n with
    | none => none
    | some rest =>
      match pl.read_point (n : Int) with
      | none => none
      | some point =>
        some (rest ++ [(blank_to_space point.2.1, blank_to_space point.2.2)])

/-- The XML tree built by `save_data` (source lines 712-762): the two
option-menu values, the depth and plunge texts (blank saved as a single
space), and the points in list order.  The `.text`/`.tail` indentation
whitespace only pretty-prints the file and does not alter any field. -/
def save_data_tree (st : AppState) : Option SpotDrillDoc :=
  match save_data_points st.plist st.plist.point_count.toNat with
  | none => none
  | some pts =>
    some { unitsel := st.inch_mm_select_var,
           modesel := st.abs_rel_select_var,
           depthexpr := blank_to_space st.depth_entry,
           plungeexpr := blank_to_space st.plunge_entry,
           points := pts }

/-- How `save_data`'s write attempt ends: the tree was written, or
`PermissionError` was caught (error box shown, nothing else updated). -/
inductive SaveOutcome
  | written (doc : SpotDrillDoc)
  | permission_error
deriving DecidableEq, Repr

/-- `save_data` (source lines 701-779): build the XML tree, try to write
it (the destination path is given split into directory and base name, as
`os.path.split` splits it; `can_write` is whether the write succeeds); on
success update the window title, the `config` dictionary's default data
path and file, and the config file; on `PermissionError` show an error box
and leave everything unchanged.  `none` is the uncaught `IndexError` from
the point-reading loop. -/
def save_data (st : AppState) (dir base : String) (can_write : Bool) :
    Option (AppState × SaveOutcome) :=
  match save_data_tree st with
  | none => none
  | some doc =>
    if can_write then
      let file_path := dir ++ "/" ++ base
      let st1 := { st with window_title := "Spot Drilling Tool: " ++ file_path }
      let st2 := { st1 with config :=
        { st1.config with default_data_path := dir, default_data_file := base } }
      some (update_config_file st2, SaveOutcome.written doc)
    else
      some (st, SaveOutcome.permission_error)

/-! ## Theorems -/

/-- C4: the claim says `clear()` empties the store AND resets the selection
to the "none" sentinel.  The code empties the store but leaves
`row_selected` untouched: clearing a store whose row 0 is selected leaves
`row_selected = 0`, a stale index into a now-empty store, contradicting the
claim and the source's own comment that `clear` returns the object "back to
its initial state" (whose `row_selected` is `NONESELECTED`). -/
theorem C4_clear_keeps_stale_selection :
    PointsList.clear { points := [{ number := 0, x := "1", y := "2" }],
                       point_count := 1, row_selected := 0 }
      = { points := [], point_count := 0, row_selected := 0 } ∧
    (0 : Int) ≠ NONESELECTED := by
  constructor
  · rfl
  · decide

/-- C5 (amended): `deselect_row(row)` unconditionally sets `row_selected`
to `NONESELECTED`, ignoring its argument, and leaves the points and the
point count unchanged — it clears the current selection even for a stale
deselect event naming a non-selected row. -/
theorem C5_deselect_always_clears (self : PointsList) (row : Int) :
    (self.deselect_row row).row_selected = NONESELECTED ∧
    (self.deselect_row row).points = self.points ∧
    (self.deselect_row row).point_count = self.point_count :=
  ⟨rfl, rfl, rfl⟩

/-- C5 counterexample: the claim says `deselect(index)` is a no-op when
`index` differs from the selected index.  Deselecting row 0 of a store
whose selected row is 1 changes `row_selected` (from 1 to -1), so it is
not a no-op. -/
theorem C5_deselect_counterexample :
    (PointsList.deselect_row
        { points := [{ number := 0, x := "1", y := "2" },
                     { number := 1, x := "3", y := "4" }],
          point_count := 2, row_selected := 1 } 0).row_selected ≠ (1 : Int) := by
  decide

/-- C8: the claim says a successful save rewrites the configuration record
as four lines ending with the default G-code filename.  Evaluating a
successful save at a configuration whose G-code directory is "/gc" and
G-code filename is "gcode.nc" shows the fourth line written is "/gc" (the
directory again, source line 911), not the filename — the code contradicts
its own `init_config`, which reads line 4 back as `default_gcode_file`. -/
theorem C8_config_fourth_line_is_gcode_path :
    (save_data
        { window_title := "Spot Drilling Tool",
          config := { default_data_path := "/old", default_data_file := "old.xml",
                      default_gcode_path := "/gc", default_gcode_file := "gcode.nc" },
          config_file := [],
          inch_mm_select_var := "Unit: Inches", abs_rel_select_var := "Mode: Absolute",
          depth_entry := ".1", plunge_entry := "1.5",
          plist := PointsList.init } "/data" "file.xml" true).map
        (fun r => r.1.config_file)
      = some ["/data\n", "file.xml\n", "/gc\n", "/gc"] ∧ "/gc" ≠ "gcode.nc" := by
  constructor
  · rfl
  · decide

/-- C7 (amended): an input string that strips to the empty string (empty or
whitespace-only input) makes `check_if_num` report an error — the stripped
empty expression fails to compile, the `SyntaxError` branch runs, and the
widget is turned red with the "does not evaluate to a number" message —
rather than being treated as the value 0.  `ev` abstracts the external
evaluator's behaviour on nonempty expressions, which is never consulted
here. -/
theorem C7_blank_input_is_error (ev : String → NeOutcome) (s : String)
    (h : py_strip s = "") :
    check_if_num ev s = CheckResult.red " does not evaluate to a number" := by
  simp [check_if_num, ne_evaluate, h]

/-- C7 witness: the whitespace-only input "   " strips to the empty string
and is reported as an error. -/
theorem C7_blank_input_witness :
    py_strip "   " = "" ∧
    check_if_num (fun _ => NeOutcome.value) "   "
      = CheckResult.red " does not evaluate to a number" :=
  ⟨by decide, C7_blank_input_is_error (fun _ => NeOutcome.value) "   " (by decide)⟩

/-- C7 counterexample: the claim says evaluation of the empty input
succeeds and is treated as 0.  Even with an evaluator that succeeds on
every expression it is given, `check_if_num` on the empty string reports
an error (red widget, error box), refuting the claim. -/
theorem C7_counterexample :
    check_if_num (fun _ => NeOutcome.value) ""
      = CheckResult.red " does not evaluate to a number" := by
  decide

/-- C2 (amended): when the chosen file is not well-formed XML, `open_pressed`
fails with the caught `ParseError` and the in-memory project state — point
list, unit mode, coordinate mode, depth expression, plunge-rate expression —
is exactly as it was before the load.  (A well-formed XML file lacking an
expected element instead aborts with an uncaught `AttributeError` after part
of the state has already been overwritten; see the counterexample.) -/
theorem C2_parse_error_preserves_state (st : AppState) (dir base : String) :
    (open_pressed st true dir base XmlFile.malformed).2 = LoadOutcome.parse_error ∧
    (open_pressed st true dir base XmlFile.malformed).1.plist = st.plist ∧
    (open_pressed st true dir base XmlFile.malformed).1.inch_mm_select_var
      = st.inch_mm_select_var ∧
    (open_pressed st true dir base XmlFile.malformed).1.abs_rel_select_var
      = st.abs_rel_select_var ∧
    (open_pressed st true dir base XmlFile.malformed).1.depth_entry = st.depth_entry ∧
    (open_pressed st true dir base XmlFile.malformed).1.plunge_entry = st.plunge_entry :=
  ⟨rfl, rfl, rfl, rfl, rfl, rfl⟩

/-- C2 counterexample: a file that is well-formed XML but not in the
expected structure (its `points` element is missing) makes the load fail
with an uncaught `AttributeError` rather than the claimed `ParseError`, and
the failed load has partially overwritten the state: the unit mode has been
replaced and the point list has been cleared. -/
theorem C2_counterexample :
    (open_pressed
        (⟨"t", ⟨"dp", "df", "gp", "gf"⟩, [], "Unit: Inches", "Mode: Absolute", "5", "6",
          ⟨[⟨0, "1", "2"⟩], 1, 0⟩⟩ : AppState) true "d" "f"
        (XmlFile.doc ⟨some "Unit: Millimeters", some "Mode: Relative",
                      some "9", some "8", none⟩)).2 ≠ LoadOutcome.parse_error ∧
    (open_pressed
        (⟨"t", ⟨"dp", "df", "gp", "gf"⟩, [], "Unit: Inches", "Mode: Absolute", "5", "6",
          ⟨[⟨0, "1", "2"⟩], 1, 0⟩⟩ : AppState) true "d" "f"
        (XmlFile.doc ⟨some "Unit: Millimeters", some "Mode: Relative",
                      some "9", some "8", none⟩)).1.plist.points ≠ [⟨0, "1", "2"⟩] ∧
    (open_pressed
        (⟨"t", ⟨"dp", "df", "gp", "gf"⟩, [], "Unit: Inches", "Mode: Absolute", "5", "6",
          ⟨[⟨0, "1", "2"⟩], 1, 0⟩⟩ : AppState) true "d" "f"
        (XmlFile.doc ⟨some "Unit: Millimeters", some "Mode: Relative",
                      some "9", some "8", none⟩)).1.inch_mm_select_var ≠ "Unit: Inches" := by
  refine ⟨?_, ?_, ?_⟩ <;> decide

/-- C10: after the user confirms, `open_pressed` updates the window title,
the remembered default data path and filename in the `config` dictionary,
and rewrites the configuration file on disk, all before attempting to parse
the chosen file — so these updates happen for every parse outcome — and a
load that then fails to parse (ParseError) leaves the point list and all
settings unchanged while the remembered default location has already been
durably changed. -/
theorem C10_open_updates_config_before_parse (st : AppState) (dir base : String)
    (file : XmlFile) :
    (open_pressed st true dir base file).1.window_title
      = "Spot Drilling Tool: " ++ (dir ++ "/" ++ base) ∧
    (open_pressed st true dir base file).1.config.default_data_path = dir ∧
    (open_pressed st true dir base file).1.config.default_data_file = base ∧
    (open_pressed st true dir base file).1.config_file
      = [dir ++ "\n", base ++ "\n", st.config.default_gcode_path ++ "\n",
         st.config.default_gcode_path] ∧
    (file = XmlFile.malformed →
      (open_pressed st true dir base file).2 = LoadOutcome.parse_error ∧
      (open_pressed st true dir base file).1.plist = st.plist ∧
      (open_pressed st true dir base file).1.inch_mm_select_var = st.inch_mm_select_var ∧
      (open_pressed st true dir base file).1.abs_rel_select_var = st.abs_rel_select_var ∧
      (open_pressed st true dir base file).1.depth_entry = st.depth_entry ∧
      (open_pressed st true dir base file).1.plunge_entry = st.plunge_entry) := by
  rcases file with _ | d
  · exact ⟨rfl, rfl, rfl, rfl, fun _ => ⟨rfl, rfl, rfl, rfl, rfl, rfl⟩⟩
  · rcases d with ⟨u, m, de, pe, ps⟩
    rcases u with _ | u
    · exact ⟨rfl, rfl, rfl, rfl, fun h => XmlFile.noConfusion h⟩
    rcases m with _ | m
    · exact ⟨rfl, rfl, rfl, rfl, fun h => XmlFile.noConfusion h⟩
    rcases de with _ | de
    · exact ⟨rfl, rfl, rfl, rfl, fun h => XmlFile.noConfusion h⟩
    rcases pe with _ | pe
    · exact ⟨rfl, rfl, rfl, rfl, fun h => XmlFile.noConfusion h⟩
    rcases ps with _ | ps
    · exact ⟨rfl, rfl, rfl, rfl, fun h => XmlFile.noConfusion h⟩
    · exact ⟨rfl, rfl, rfl, rfl, fun h => XmlFile.noConfusion h⟩

/-- C10 witness: at a concrete state and a file that fails XML parsing, the
confirmed open has rewritten the config file with the new data directory
and filename while the point list and settings are untouched. -/
theorem C10_witness :
    (open_pressed
        (⟨"t", ⟨"dp", "df", "gp", "gf"⟩, ["old"], "Unit: Inches", "Mode: Absolute", "5", "6",
          ⟨[⟨0, "1", "2"⟩], 1, 0⟩⟩ : AppState) true "dd" "ff" XmlFile.malformed).2
      = LoadOutcome.parse_error ∧
    (open_pressed
        (⟨"t", ⟨"dp", "df", "gp", "gf"⟩, ["old"], "Unit: Inches", "Mode: Absolute", "5", "6",
          ⟨[⟨0, "1", "2"⟩], 1, 0⟩⟩ : AppState) true "dd" "ff" XmlFile.malformed).1.config_file
      = ["dd" ++ "\n", "ff" ++ "\n", "gp" ++ "\n", "gp"] ∧
    (open_pressed
        (⟨"t", ⟨"dp", "df", "gp", "gf"⟩, ["old"], "Unit: Inches", "Mode: Absolute", "5", "6",
          ⟨[⟨0, "1", "2"⟩], 1, 0⟩⟩ : AppState) true "dd" "ff" XmlFile.malformed).1.plist
      = ⟨[⟨0, "1", "2"⟩], 1, 0⟩ := by
  have h := C10_open_updates_config_before_parse
    (⟨"t", ⟨"dp", "df", "gp", "gf"⟩, ["old"], "Unit: Inches", "Mode: Absolute", "5", "6",
      ⟨[⟨0, "1", "2"⟩], 1, 0⟩⟩ : AppState) "dd" "ff" XmlFile.malformed
  exact ⟨(h.2.2.2.2 rfl).1, h.2.2.2.1, (h.2.2.2.2 rfl).2.1⟩

/-- A nonnegative Python index in range resolves to itself. -/
theorem pyIdx_coe {n k : Nat} (h : k < n) : pyIdx n (k : Int) = some k := by
  unfold pyIdx
  rw [if_pos (by exact_mod_cast Nat.zero_le k), if_pos (by exact_mod_cast h)]
  simp

/-- `pyGet` at a nonnegative in-range index is plain list lookup. -/
theorem pyGet_coe {α : Type u} (l : List α) (k : Nat) (h : k < l.length) :
    pyGet l (k : Int) = l.get? k := by
  simp [pyGet, pyIdx_coe h]

theorem get?_append_len {α : Type u} : ∀ (l1 : List α) (a : α) (l2 : List α),
    (l1 ++ a :: l2).get? l1.length = some a := by
  intro l1 a l2
  induction l1 with
  | nil => rfl
  | cons x xs ih => simpa using ih

theorem pyGet_append {α : Type u} (l1 : List α) (a : α) (l2 : List α) :
    pyGet (l1 ++ a :: l2) (l1.length : Int) = some a := by
  have h : l1.length < (l1 ++ a :: l2).length := by
    simp [List.length_append]
  rw [pyGet_coe _ _ h, get?_append_len]

theorem listModify_append {α : Type u} (f : α → α) :
    ∀ (l1 : List α) (a : α) (l2 : List α),
      listModify f l1.length (l1 ++ a :: l2) = l1 ++ f a :: l2 := by
  intro l1 a l2
  induction l1 with
  | nil => rfl
  | cons x xs ih => simpa [listModify] using ih

theorem pyModify_append {α : Type u} (f : α → α) (l1 : List α) (a : α) (l2 : List α) :
    pyModify f (l1.length : Int) (l1 ++ a :: l2) = some (l1 ++ f a :: l2) := by
  have h : l1.length < (l1 ++ a :: l2).length := by
    simp [List.length_append]
  unfold pyModify
  rw [pyIdx_coe h]
  show some (listModify f l1.length (l1 ++ a :: l2)) = some (l1 ++ f a :: l2)
  rw [listModify_append]

theorem listRemove_append {α : Type u} :
    ∀ (l1 : List α) (a : α) (l2 : List α),
      listRemove l1.length (l1 ++ a :: l2) = l1 ++ l2 := by
  intro l1 a l2
  induction l1 with
  | nil => rfl
  | cons x xs ih => simpa [listRemove] using ih

theorem pyRemove_append {α : Type u} (l1 : List α) (a : α) (l2 : List α) :
    pyRemove (l1 ++ a :: l2) (l1.length : Int) = some (l1 ++ l2) := by
  have h : l1.length < (l1 ++ a :: l2).length := by
    simp [List.length_append]
  unfold pyRemove
  rw [pyIdx_coe h]
  show some (listRemove l1.length (l1 ++ a :: l2)) = some (l1 ++ l2)
  rw [listRemove_append]

theorem take_succ_of_get? {α : Type u} :
    ∀ (l : List α) (n : Nat) (a : α), l.get? n = some a → l.take (n + 1) = l.take n ++ [a] := by
  intro l
  induction l with
  | nil => intro n a h; cases h
  | cons x xs ih =>
    intro n a h
    cases n with
    | zero =>
      cases h
      rfl
    | succ m =>
      have := ih m a h
      simp [List.take, this]

/-- The point-saving loop of `save_data`, run `n` steps with `n` within the
list, collects the first `n` points' expressions with blanks spaced. -/
theorem save_data_points_spec (pl : PointsList) :
    ∀ n : Nat, n ≤ pl.points.length →
      save_data_points pl n
        = some ((pl.points.take n).map
            (fun p => (blank_to_space p.x, blank_to_space p.y))) := by
  intro n
  induction n with
  | zero => intro _; rfl
  | succ m ih =>
    intro h
    have hlt : m < pl.points.length := Nat.lt_of_succ_le h
    have ha := List.get?_eq_get hlt
    unfold save_data_points
    rw [ih (Nat.le_of_succ_le h)]
    unfold PointsList.read_point
    rw [pyGet_coe _ _ hlt, ha]
    rw [take_succ_of_get? _ _ _ ha, List.map_append]
    rfl

/-- Loading points appends them in order: the resulting x/y texts are the
prior texts followed by the loaded pairs (used with a cleared list). -/
theorem foldl_append_point_xys :
    ∀ (ps : List (String × String)) (pl : PointsList),
      ((ps.foldl (fun pl2 xy => pl2.append_point xy.1 xy.2) pl).points.map
          (fun p => (p.x, p.y)))
        = pl.points.map (fun p => (p.x, p.y)) ++ ps := by
  intro ps
  induction ps with
  | nil => intro pl; simp
  | cons xy ps ih =>
    intro pl
    rcases xy with ⟨x, y⟩
    rw [List.foldl_cons, ih]
    simp [PointsList.append_point, PointsList.select_row]

/-- C1 (amended): saving a project state and loading the saved file back
reproduces the unit mode, the coordinate mode and, for nonempty fields, the
depth, plunge-rate and point expressions identically; an expression field
that was empty before the save is persisted as a single space character and
comes back from the load as that single space (it is NOT restored to the
empty string).  `hcount` is the `PointsList` bookkeeping invariant that
`point_count` equals the length of the points list. -/
theorem C1_round_trip (st before : AppState) (dir base dir2 base2 : String)
    (hcount : st.plist.point_count = (st.plist.points.length : Int)) :
    ∃ (saved : AppState) (doc : SpotDrillDoc),
      save_data st dir base true = some (saved, SaveOutcome.written doc) ∧
      (open_pressed before true dir2 base2 doc.toFile).2 = LoadOutcome.ok ∧
      (open_pressed before true dir2 base2 doc.toFile).1.inch_mm_select_var
        = st.inch_mm_select_var ∧
      (open_pressed before true dir2 base2 doc.toFile).1.abs_rel_select_var
        = st.abs_rel_select_var ∧
      (open_pressed before true dir2 base2 doc.toFile).1.depth_entry
        = blank_to_space st.depth_entry ∧
      (open_pressed before true dir2 base2 doc.toFile).1.plunge_entry
        = blank_to_space st.plunge_entry ∧
      (open_pressed before true dir2 base2 doc.toFile).1.plist.points.map
          (fun p => (p.x, p.y))
        = st.plist.points.map (fun p => (blank_to_space p.x, blank_to_space p.y)) := by
  have htoNat : st.plist.point_count.toNat = st.plist.points.length := by
    rw [hcount]
    exact Int.toNat_natCast _
  have hpts := save_data_points_spec st.plist st.plist.point_count.toNat (Nat.le_of_eq htoNat)
  have htake : st.plist.points.take st.plist.point_count.toNat = st.plist.points := by
    rw [htoNat]
    exact List.take_length _
  rw [htake] at hpts
  refine ⟨update_config_file
      { st with window_title := "Spot Drilling Tool: " ++ (dir ++ "/" ++ base),
                config := { st.config with default_data_path := dir,
                                           default_data_file := base } },
          { unitsel := st.inch_mm_select_var, modesel := st.abs_rel_select_var,
            depthexpr := blank_to_space st.depth_entry,
            plungeexpr := blank_to_space st.plunge_entry,
            points := st.plist.points.map
              (fun p => (blank_to_space p.x, blank_to_space p.y)) },
          ?_, rfl, rfl, rfl, rfl, rfl, ?_⟩
  · have htree : save_data_tree st
        = some { unitsel := st.inch_mm_select_var, modesel := st.abs_rel_select_var,
                 depthexpr := blank_to_space st.depth_entry,
                 plungeexpr := blank_to_space st.plunge_entry,
                 points := st.plist.points.map
                   (fun p => (blank_to_space p.x, blank_to_space p.y)) } := by
      unfold save_data_tree
      rw [hpts]
    unfold save_data
    rw [htree]
    rfl
  · show ((st.plist.points.map (fun p => (blank_to_space p.x, blank_to_space p.y))).foldl
        (fun pl xy => pl.append_point xy.1 xy.2) before.plist.clear).points.map
          (fun p => (p.x, p.y))
      = st.plist.points.map (fun p => (blank_to_space p.x, blank_to_space p.y))
    rw [foldl_append_point_xys]
    simp [PointsList.clear]

/-- C1 witness: a concrete project (one point with an empty x expression,
depth "2", plunge "1.5") saved and reloaded comes back with the unit and
mode strings identical, the nonempty expressions identical, and the empty
x expression as a single space. -/
theorem C1_round_trip_witness :
    ∃ (saved : AppState) (doc : SpotDrillDoc),
      save_data (⟨"t", ⟨"dp", "df", "gp", "gf"⟩, [], "Unit: Inches", "Mode: Absolute",
          "2", "1.5", ⟨[⟨0, "", "3"⟩], 1, 0⟩⟩ : AppState) "a" "b" true
        = some (saved, SaveOutcome.written doc) ∧
      (open_pressed (⟨"u", ⟨"x", "y", "z", "w"⟩, [], "q", "r", "s", "v",
          ⟨[], 0, -1⟩⟩ : AppState) true "c" "d" doc.toFile).2 = LoadOutcome.ok ∧
      (open_pressed (⟨"u", ⟨"x", "y", "z", "w"⟩, [], "q", "r", "s", "v",
          ⟨[], 0, -1⟩⟩ : AppState) true "c" "d" doc.toFile).1.inch_mm_select_var
        = "Unit: Inches" ∧
      (open_pressed (⟨"u", ⟨"x", "y", "z", "w"⟩, [], "q", "r", "s", "v",
          ⟨[], 0, -1⟩⟩ : AppState) true "c" "d" doc.toFile).1.abs_rel_select_var
        = "Mode: Absolute" ∧
      (open_pressed (⟨"u", ⟨"x", "y", "z", "w"⟩, [], "q", "r", "s", "v",
          ⟨[], 0, -1⟩⟩ : AppState) true "c" "d" doc.toFile).1.depth_entry
        = blank_to_space "2" ∧
      (open_pressed (⟨"u", ⟨"x", "y", "z", "w"⟩, [], "q", "r", "s", "v",
          ⟨[], 0, -1⟩⟩ : AppState) true "c" "d" doc.toFile).1.plunge_entry
        = blank_to_space "1.5" ∧
      (open_pressed (⟨"u", ⟨"x", "y", "z", "w"⟩, [], "q", "r", "s", "v",
          ⟨[], 0, -1⟩⟩ : AppState) true "c" "d" doc.toFile).1.plist.points.map
          (fun p => (p.x, p.y))
        = ([⟨0, "", "3"⟩] : List Point).map
            (fun p => (blank_to_space p.x, blank_to_space p.y)) :=
  C1_round_trip
    (⟨"t", ⟨"dp", "df", "gp", "gf"⟩, [], "Unit: Inches", "Mode: Absolute",
      "2", "1.5", ⟨[⟨0, "", "3"⟩], 1, 0⟩⟩ : AppState)
    (⟨"u", ⟨"x", "y", "z", "w"⟩, [], "q", "r", "s", "v", ⟨[], 0, -1⟩⟩ : AppState)
    "a" "b" "c" "d" (by decide)

/-- C1 counterexample: the claim says an expression field that was empty
before the save is empty again after the load.  Saving a project whose
depth expression is empty writes the single space, and loading that file
puts the single space — not the empty string — into the depth entry. -/
theorem C1_counterexample :
    save_data_tree (⟨"t", ⟨"dp", "df", "gp", "gf"⟩, [], "Unit: Inches", "Mode: Absolute",
        "", "1.5", ⟨[], 0, -1⟩⟩ : AppState)
      = some ⟨"Unit: Inches", "Mode: Absolute", " ", "1.5", []⟩ ∧
    (open_pressed (⟨"t", ⟨"dp", "df", "gp", "gf"⟩, [], "Unit: Inches", "Mode: Absolute",
        "", "1.5", ⟨[], 0, -1⟩⟩ : AppState) true "p" "f"
        (SpotDrillDoc.toFile ⟨"Unit: Inches", "Mode: Absolute", " ", "1.5", []⟩)).1.depth_entry
      = " " ∧
    (" " : String) ≠ "" := by
  refine ⟨rfl, rfl, by decide⟩

theorem pyIdx_neg_eq {n : Nat} {i : Int} (h : i < 0) (h2 : 0 ≤ i + (n : Int)) :
    pyIdx n i = pyIdx n (i + (n : Int)) := by
  have hL : pyIdx n i = some (i + (n : Int)).toNat := by
    unfold pyIdx
    rw [if_neg (by omega), if_pos h2]
  have hR : pyIdx n (i + (n : Int)) = some (i + (n : Int)).toNat := by
    unfold pyIdx
    rw [if_pos h2, if_pos (by omega)]
  rw [hL, hR]

theorem pyGet_neg_eq {α : Type u} (l : List α) (i : Int) (h : i < 0)
    (h2 : 0 ≤ i + (l.length : Int)) :
    pyGet l i = pyGet l (i + (l.length : Int)) := by
  unfold pyGet
  rw [pyIdx_neg_eq h h2]

theorem pyModify_neg_eq {α : Type u} (f : α → α) (l : List α) (i : Int) (h : i < 0)
    (h2 : 0 ≤ i + (l.length : Int)) :
    pyModify f i l = pyModify f (i + (l.length : Int)) l := by
  unfold pyModify
  rw [pyIdx_neg_eq h h2]

theorem pyGet_append_succ {α : Type u} (l1 : List α) (a b : α) (l2 : List α) :
    pyGet (l1 ++ a :: b :: l2) ((l1.length : Int) + 1) = some b := by
  have e : l1 ++ a :: b :: l2 = (l1 ++ [a]) ++ b :: l2 := by simp
  have e2 : ((l1.length : Int) + 1) = (((l1 ++ [a]).length : Int)) := by
    rw [List.length_append, List.length_singleton]
    push_cast
    ring
  rw [e, e2, pyGet_append]

theorem pyModify_append_succ {α : Type u} (f : α → α) (l1 : List α) (a b : α) (l2 : List α) :
    pyModify f ((l1.length : Int) + 1) (l1 ++ a :: b :: l2) = some (l1 ++ a :: f b :: l2) := by
  have e : l1 ++ a :: b :: l2 = (l1 ++ [a]) ++ b :: l2 := by simp
  have e2 : ((l1.length : Int) + 1) = (((l1 ++ [a]).length : Int)) := by
    rw [List.length_append, List.length_singleton]
    push_cast
    ring
  rw [e, e2, pyModify_append]
  simp

/-- `move_point_forward` at an in-range, non-final index `l1.length` swaps
the x/y content of the two adjacent points and selects the next row. -/
theorem move_forward_at (self : PointsList) (l1 : List Point) (a b : Point) (l2 : List Point)
    (hpts : self.points = l1 ++ a :: b :: l2)
    (hcount : self.point_count = (self.points.length : Int)) :
    self.move_point_forward (l1.length : Int)
      = some { points := l1 ++ { a with x := b.x, y := b.y }
                 :: { b with x := a.x, y := a.y } :: l2,
               point_count := self.point_count,
               row_selected := (l1.length : Int) + 1 } := by
  have hlen : self.point_count = (l1.length : Int) + (l2.length : Int) + 2 := by
    rw [hcount, hpts, List.length_append, List.length_cons, List.length_cons]
    push_cast
    ring
  have hneq : ¬ (((l1.length : Int) == self.point_count - 1) = true) := by
    rw [beq_iff_eq]
    omega
  unfold PointsList.move_point_forward
  rw [if_neg hneq, hpts]
  simp only [pyGet_append, pyModify_append, pyGet_append_succ, pyModify_append_succ,
    PointsList.place_points_on_grid, PointsList.select_row]

/-- `move_point_backward` at an in-range, nonzero index `l1.length + 1`
swaps the x/y content of the two adjacent points and selects the previous
row. -/
theorem move_backward_at (self : PointsList) (l1 : List Point) (a b : Point) (l2 : List Point)
    (hpts : self.points = l1 ++ a :: b :: l2) :
    self.move_point_backward ((l1.length : Int) + 1)
      = some { points := l1 ++ { a with x := b.x, y := b.y }
                 :: { b with x := a.x, y := a.y } :: l2,
               point_count := self.point_count,
               row_selected := (l1.length : Int) } := by
  have hneq : ¬ ((((l1.length : Int) + 1) == 0) = true) := by
    rw [beq_iff_eq]
    omega
  have hsub : ((l1.length : Int) + 1) - 1 = (l1.length : Int) := by ring
  unfold PointsList.move_point_backward
  rw [if_neg hneq, hpts]
  simp only [hsub, pyGet_append, pyModify_append, pyGet_append_succ, pyModify_append_succ,
    PointsList.place_points_on_grid, PointsList.select_row]

/-- Any position with a successor inside the list splits it into a prefix
of that length and two adjacent elements. -/
theorem exists_two_decomp {α : Type u} :
    ∀ (l : List α) (k : Nat), k + 1 < l.length →
      ∃ (l1 : List α) (a b : α) (l2 : List α), l = l1 ++ a :: b :: l2 ∧ l1.length = k := by
  intro l k
  induction k generalizing l with
  | zero =>
    intro h
    cases l with
    | nil => simp at h
    | cons a t =>
      cases t with
      | nil => simp at h
      | cons b rest => exact ⟨[], a, b, rest, rfl, rfl⟩
  | succ m ih =>
    intro h
    cases l with
    | nil => simp at h
    | cons x xs =>
      obtain ⟨l1, a, b, l2, hdec, hl⟩ := ih xs (by simpa using h)
      exact ⟨x :: l1, a, b, l2, by rw [hdec]; rfl, by simp [hl]⟩

/-- C6: for a store with contiguous bookkeeping (`point_count` equals the
list length) and a valid non-boundary index `i`, moving the content at `i`
up (swap with `i-1`) and then moving that same content down from its new
position `i-1` restores the original points list, and likewise moving down
then up — both compositions restore the original order of (x, y) contents. -/
theorem C6_move_up_down_restores (st : PointsList) (i : Int)
    (hcount : st.point_count = (st.points.length : Int))
    (h1 : 0 < i) (h2 : i < st.point_count - 1) :
    (∃ (st1 st2 : PointsList), st.move_point_backward i = some st1 ∧
        st1.move_point_forward (i - 1) = some st2 ∧ st2.points = st.points) ∧
    (∃ (st3 st4 : PointsList), st.move_point_forward i = some st3 ∧
        st3.move_point_backward (i + 1) = some st4 ∧ st4.points = st.points) := by
  constructor
  · -- up then down, swapping positions i-1 and i both times
    obtain ⟨l1, a, b, l2, hdec, hl1⟩ :=
      exists_two_decomp st.points (i - 1).toNat (by omega)
    have hcast : ((l1.length : Int)) = i - 1 := by
      rw [hl1]
      omega
    have hb := move_backward_at st l1 a b l2 hdec
    rw [hcast] at hb
    have hb' : st.move_point_backward i
        = some { points := l1 ++ { a with x := b.x, y := b.y }
                   :: { b with x := a.x, y := a.y } :: l2,
                 point_count := st.point_count, row_selected := i - 1 } := by
      have : i - 1 + 1 = i := by ring
      rwa [this] at hb
    have hf := move_forward_at
      { points := l1 ++ { a with x := b.x, y := b.y }
          :: { b with x := a.x, y := a.y } :: l2,
        point_count := st.point_count, row_selected := i - 1 }
      l1 { a with x := b.x, y := b.y } { b with x := a.x, y := a.y } l2 rfl
      (by
        show st.point_count
          = ((l1 ++ { a with x := b.x, y := b.y }
              :: { b with x := a.x, y := a.y } :: l2).length : Int)
        rw [hcount, hdec, List.length_append, List.length_cons, List.length_cons,
          List.length_append, List.length_cons, List.length_cons])
    rw [hcast] at hf
    refine ⟨_, _, hb', hf, ?_⟩
    rw [hdec]
  · -- down then up, swapping positions i and i+1 both times
    obtain ⟨l1, a, b, l2, hdec, hl1⟩ :=
      exists_two_decomp st.points i.toNat (by omega)
    have hcast : ((l1.length : Int)) = i := by
      rw [hl1]
      omega
    have hf := move_forward_at st l1 a b l2 hdec hcount
    rw [hcast] at hf
    have hb := move_backward_at
      { points := l1 ++ { a with x := b.x, y := b.y }
          :: { b with x := a.x, y := a.y } :: l2,
        point_count := st.point_count, row_selected := i + 1 }
      l1 { a with x := b.x, y := b.y } { b with x := a.x, y := a.y } l2 rfl
    rw [hcast] at hb
    refine ⟨_, _, hf, hb, ?_⟩
    rw [hdec]

/-- C6 witness: on a concrete three-point store, moving index 1 up then
down (and down then up) restores the original points. -/
theorem C6_witness :
    (∃ (st1 st2 : PointsList),
        PointsList.move_point_backward
          ⟨[⟨0, "1", "1"⟩, ⟨1, "2", "2"⟩, ⟨2, "3", "3"⟩], 3, 1⟩ 1 = some st1 ∧
        st1.move_point_forward (1 - 1) = some st2 ∧
        st2.points = ([⟨0, "1", "1"⟩, ⟨1, "2", "2"⟩, ⟨2, "3", "3"⟩] : List Point)) ∧
    (∃ (st3 st4 : PointsList),
        PointsList.move_point_forward
          ⟨[⟨0, "1", "1"⟩, ⟨1, "2", "2"⟩, ⟨2, "3", "3"⟩], 3, 1⟩ 1 = some st3 ∧
        st3.move_point_backward (1 + 1) = some st4 ∧
        st4.points = ([⟨0, "1", "1"⟩, ⟨1, "2", "2"⟩, ⟨2, "3", "3"⟩] : List Point)) :=
  C6_move_up_down_restores
    ⟨[⟨0, "1", "1"⟩, ⟨1, "2", "2"⟩, ⟨2, "3", "3"⟩], 3, 1⟩ 1
    (by decide) (by decide) (by decide)

theorem pyGet_neg_one_append {α : Type u} (l1 : List α) (z : α) :
    pyGet (l1 ++ [z]) (-1) = some z := by
  have h2 : (0 : Int) ≤ -1 + ((l1 ++ [z]).length : Int) := by
    rw [List.length_append, List.length_singleton]
    push_cast
    omega
  rw [pyGet_neg_eq _ _ (by omega) h2]
  have e : (-1 : Int) + ((l1 ++ [z]).length : Int) = (l1.length : Int) := by
    rw [List.length_append, List.length_singleton]
    push_cast
    ring
  rw [e]
  exact pyGet_append l1 z []

theorem pyModify_neg_one_append {α : Type u} (f : α → α) (l1 : List α) (z : α) :
    pyModify f (-1) (l1 ++ [z]) = some (l1 ++ [f z]) := by
  have h2 : (0 : Int) ≤ -1 + ((l1 ++ [z]).length : Int) := by
    rw [List.length_append, List.length_singleton]
    push_cast
    omega
  rw [pyModify_neg_eq _ _ _ (by omega) h2]
  have e : (-1 : Int) + ((l1 ++ [z]).length : Int) = (l1.length : Int) := by
    rw [List.length_append, List.length_singleton]
    push_cast
    ring
  rw [e]
  exact pyModify_append f l1 z []

theorem pyGet_neg_two_append {α : Type u} (l1 : List α) (a z : α) :
    pyGet (l1 ++ [a, z]) (-2) = some a := by
  have hlen : ((l1 ++ [a, z]).length : Int) = (l1.length : Int) + 2 := by
    rw [List.length_append, List.length_cons, List.length_singleton]
    push_cast
    ring
  have h2 : (0 : Int) ≤ -2 + ((l1 ++ [a, z]).length : Int) := by
    rw [hlen]
    omega
  rw [pyGet_neg_eq _ _ (by omega) h2]
  have e : (-2 : Int) + ((l1 ++ [a, z]).length : Int) = (l1.length : Int) := by
    rw [hlen]
    ring
  rw [e]
  exact pyGet_append l1 a [z]

theorem pyModify_neg_two_append {α : Type u} (f : α → α) (l1 : List α) (a z : α) :
    pyModify f (-2) (l1 ++ [a, z]) = some (l1 ++ [f a, z]) := by
  have hlen : ((l1 ++ [a, z]).length : Int) = (l1.length : Int) + 2 := by
    rw [List.length_append, List.length_cons, List.length_singleton]
    push_cast
    ring
  have h2 : (0 : Int) ≤ -2 + ((l1 ++ [a, z]).length : Int) := by
    rw [hlen]
    omega
  rw [pyModify_neg_eq _ _ _ (by omega) h2]
  have e : (-2 : Int) + ((l1 ++ [a, z]).length : Int) = (l1.length : Int) := by
    rw [hlen]
    ring
  rw [e]
  exact pyModify_append f l1 a [z]

theorem pyGet_last_of_two {α : Type u} (front : List α) (p q : α) :
    pyGet (front ++ [p, q]) (-1) = some q := by
  have e : front ++ [p, q] = (front ++ [p]) ++ [q] := by simp
  rw [e, pyGet_neg_one_append]

theorem pyModify_last_of_two {α : Type u} (f : α → α) (front : List α) (p q : α) :
    pyModify f (-1) (front ++ [p, q]) = some (front ++ [p, f q]) := by
  have e : front ++ [p, q] = (front ++ [p]) ++ [q] := by simp
  rw [e, pyModify_neg_one_append]
  simp

theorem pyGet_cons_last {α : Type u} (p0 : α) (mid : List α) (z : α) :
    pyGet (p0 :: (mid ++ [z])) (-1) = some z := by
  have e : p0 :: (mid ++ [z]) = (p0 :: mid) ++ [z] := by simp
  rw [e, pyGet_neg_one_append]

theorem pyModify_cons_last {α : Type u} (f : α → α) (p0 : α) (mid : List α) (z : α) :
    pyModify f (-1) (p0 :: (mid ++ [z])) = some (p0 :: (mid ++ [f z])) := by
  have e : p0 :: (mid ++ [z]) = (p0 :: mid) ++ [z] := by simp
  rw [e, pyModify_neg_one_append]
  simp

theorem pyGet_zero_cons {α : Type u} (x : α) (xs : List α) :
    pyGet (x :: xs) 0 = some x := by
  have h : (0 : Nat) < (x :: xs).length := by simp
  rw [show (0 : Int) = ((0 : Nat) : Int) by norm_num, pyGet_coe _ _ h]
  rfl

theorem pyModify_zero_cons {α : Type u} (f : α → α) (x : α) (xs : List α) :
    pyModify f 0 (x :: xs) = some (f x :: xs) := by
  have h : (0 : Nat) < (x :: xs).length := by simp
  unfold pyModify
  rw [show (0 : Int) = ((0 : Nat) : Int) by norm_num, pyIdx_coe h]
  rfl

/-- `move_point_backward(-1)` on a store of at least two points: Python
negative indexing makes the guard `ptnum == 0` fail and the swap acts on
`points[-1]` and `points[-2]`, exchanging the x/y content of the last two
points; `select_row(-2)` then records `row_selected = -2`. -/
theorem move_backward_neg_one (self : PointsList) (front : List Point) (p q : Point)
    (hpts : self.points = front ++ [p, q]) :
    self.move_point_backward (-1)
      = some { points := front ++ [{ p with x := q.x, y := q.y },
                                   { q with x := p.x, y := p.y }],
               point_count := self.point_count, row_selected := -2 } := by
  have hneq : ¬ (((-1 : Int) == 0) = true) := by decide
  have hm2 : (-1 : Int) - 1 = -2 := by norm_num
  unfold PointsList.move_point_backward
  rw [if_neg hneq, hpts]
  simp only [hm2, pyGet_last_of_two, pyModify_last_of_two, pyGet_neg_two_append,
    pyModify_neg_two_append, PointsList.place_points_on_grid, PointsList.select_row]

/-- `move_point_forward(-1)` on a store of at least two points: the guard
`ptnum == point_count - 1` fails, and the swap acts on `points[-1]` and
`points[0]`, exchanging the x/y content of the last and first points;
`select_row(0)` then records `row_selected = 0`. -/
theorem move_forward_neg_one (self : PointsList) (p0 : Point) (mid : List Point) (z : Point)
    (hpts : self.points = p0 :: (mid ++ [z]))
    (hcount : self.point_count = (self.points.length : Int)) :
    self.move_point_forward (-1)
      = some { points := { p0 with x := z.x, y := z.y }
                 :: (mid ++ [{ z with x := p0.x, y := p0.y }]),
               point_count := self.point_count, row_selected := 0 } := by
  have hlen : self.point_count = (mid.length : Int) + 2 := by
    rw [hcount, hpts, List.length_cons, List.length_append, List.length_singleton]
    push_cast
    ring
  have hneq : ¬ (((-1 : Int) == self.point_count - 1) = true) := by
    rw [beq_iff_eq]
    omega
  have h0 : (-1 : Int) + 1 = 0 := by norm_num
  unfold PointsList.move_point_forward
  rw [if_neg hneq, hpts]
  simp only [h0, pyGet_cons_last, pyModify_cons_last, pyGet_zero_cons, pyModify_zero_cons,
    PointsList.place_points_on_grid, PointsList.select_row]

/-- C9: when no row is selected (`row_selected = NONESELECTED = -1`) and the
store holds at least two points, the move-up callback runs
`move_point_backward(-1)`, which (via Python negative indexing) swaps the
(x, y) contents of the last two points and sets `row_selected = -2` — a
Python index that resolves to the second-to-last row — and the move-down
callback runs `move_point_forward(-1)`, which swaps the contents of the
last and first points and selects row 0; neither is a no-op. -/
theorem C9_moves_without_selection (st : PointsList)
    (hcount : st.point_count = (st.points.length : Int))
    (hsel : st.row_selected = NONESELECTED) :
    (∀ (front : List Point) (p q : Point), st.points = front ++ [p, q] →
      st.move_point_backward st.row_selected
        = some { points := front ++ [{ p with x := q.x, y := q.y },
                                     { q with x := p.x, y := p.y }],
                 point_count := st.point_count, row_selected := -2 } ∧
      pyIdx st.points.length (-2) = some (st.points.length - 2)) ∧
    (∀ (p0 : Point) (mid : List Point) (z : Point), st.points = p0 :: (mid ++ [z]) →
      st.move_point_forward st.row_selected
        = some { points := { p0 with x := z.x, y := z.y }
                   :: (mid ++ [{ z with x := p0.x, y := p0.y }]),
                 point_count := st.point_count, row_selected := 0 }) := by
  constructor
  · intro front p q hpts
    constructor
    · rw [hsel]
      exact move_backward_neg_one st front p q hpts
    · have hlen : st.points.length = front.length + 2 := by
        rw [hpts, List.length_append, List.length_cons, List.length_singleton]
      have ht : ((-2 : Int) + (st.points.length : Int)).toNat = st.points.length - 2 := by
        omega
      unfold pyIdx
      rw [if_neg (by omega), if_pos (by omega), ht]
  · intro p0 mid z hpts
    rw [hsel]
    exact move_forward_neg_one st p0 mid z hpts hcount

/-- C9 witness: on a concrete two-point store with nothing selected, the
up key swaps the two points' contents and records `row_selected = -2`, and
the down key swaps them and records `row_selected = 0`. -/
theorem C9_witness :
    PointsList.move_point_backward ⟨[⟨0, "1", "2"⟩, ⟨1, "3", "4"⟩], 2, -1⟩ (-1)
      = some ⟨[⟨0, "3", "4"⟩, ⟨1, "1", "2"⟩], 2, -2⟩ ∧
    PointsList.move_point_forward ⟨[⟨0, "1", "2"⟩, ⟨1, "3", "4"⟩], 2, -1⟩ (-1)
      = some ⟨[⟨0, "3", "4"⟩, ⟨1, "1", "2"⟩], 2, 0⟩ := by
  have h := C9_moves_without_selection ⟨[⟨0, "1", "2"⟩, ⟨1, "3", "4"⟩], 2, -1⟩
    (by decide) rfl
  exact ⟨(h.1 [] ⟨0, "1", "2"⟩ ⟨1, "3", "4"⟩ rfl).1,
         h.2 ⟨0, "1", "2"⟩ [] ⟨1, "3", "4"⟩ rfl⟩

/-- The reverse traversal of `delete_point`, started at the end of
`pre ++ rest` with fuel covering exactly `pre` and a target `t` inside
`pre` whose point numbers equal their positions: it deletes the point at
position `t`, decrements the number of every following point of `pre`,
leaves `rest` (already-processed points) unchanged, and reports the
deletion. -/
theorem delete_loop_spec (t : Nat) :
    ∀ (pre rest : List Point),
      (∀ (k : Nat) (p : Point), pre.get? k = some p → p.number = (k : Int)) →
      t < pre.length →
      PointsList.delete_loop (t : Int) pre.length (pre ++ rest)
        = some ((pre.take t ++ (pre.drop (t + 1)).map
            (fun p => { p with number := p.number - 1 })) ++ rest, true) := by
  intro pre
  induction pre using List.reverseRecOn with
  | nil =>
    intro rest _ ht
    exact absurd ht (Nat.not_lt_zero t)
  | append_singleton l a ih =>
    intro rest hnum ht
    have ha : a.number = (l.length : Int) := hnum l.length a (get?_append_len l a [])
    have hlen : (l ++ [a]).length = l.length + 1 := by
      rw [List.length_append, List.length_singleton]
    have hlt1 : t < l.length + 1 := by
      rw [← hlen]
      exact ht
    have hshape : (l ++ [a]) ++ rest = l ++ a :: rest := by simp
    rw [hlen, hshape]
    simp only [PointsList.delete_loop, pyGet_append]
    rw [ha]
    by_cases hta : t = l.length
    · subst hta
      rw [if_pos (beq_self_eq_true _)]
      simp only [pyRemove_append]
      rw [List.take_left]
      have hd : (l ++ [a]).drop (l.length + 1) = [] := by
        rw [← hlen]
        exact List.drop_length _
      rw [hd]
      simp
    · have hne : ((t : Int) == (l.length : Int)) = false := by
        rw [beq_eq_false_iff_ne]
        exact fun hc => hta (by exact_mod_cast hc)
      rw [if_neg (by rw [hne]; exact Bool.false_ne_true)]
      simp only [pyModify_append]
      have hnum2 : ∀ (k : Nat) (p : Point), l.get? k = some p → p.number = (k : Int) := by
        intro k p hp
        obtain ⟨hk, -⟩ := List.get?_eq_some.mp hp
        apply hnum k p
        rw [List.get?_append hk]
        exact hp
      have ht2 : t < l.length := by omega
      rw [ih _ hnum2 ht2]
      have htake : (l ++ [a]).take t = l.take t :=
        List.take_append_of_le_length (by omega)
      have hdrop : (l ++ [a]).drop (t + 1) = l.drop (t + 1) ++ [a] :=
        List.drop_append_of_le_length (by omega)
      rw [htake, hdrop, List.map_append]
      simp [ha, List.append_assoc]

/-- C3 (amended): with contiguous point numbers (`hnum`), `delete_point`
is a no-op when no row is selected; and when a row is selected and the
index is in range `0 ≤ i < count`, it removes exactly that Point,
decrements the number of every following Point by 1 — so the surviving
numbers are again exactly the contiguous positions `0..count-2` — and
clears the selection (`row_selected = NONESELECTED`), never auto-selecting
another row.  (The claim's further assertion that an out-of-range index is
also a no-op is refuted by the counterexample.) -/
theorem C3_delete_spec (st : PointsList) (i : Int)
    (hnum : ∀ (k : Nat) (p : Point), st.points.get? k = some p → p.number = (k : Int)) :
    (st.row_selected = NONESELECTED → st.delete_point i = some st) ∧
    (st.row_selected ≠ NONESELECTED → 0 ≤ i → i < (st.points.length : Int) →
      st.delete_point i
        = some { points := st.points.take i.toNat
                   ++ (st.points.drop (i.toNat + 1)).map
                        (fun p => { p with number := p.number - 1 }),
                 point_count := st.point_count - 1,
                 row_selected := NONESELECTED } ∧
      (st.points.take i.toNat
          ++ (st.points.drop (i.toNat + 1)).map
               (fun p : Point => { p with number := p.number - 1 })).length
        = st.points.length - 1 ∧
      (∀ (k : Nat) (p : Point),
        (st.points.take i.toNat
            ++ (st.points.drop (i.toNat + 1)).map
                 (fun p : Point => { p with number := p.number - 1 })).get? k = some p →
          p.number = (k : Int))) := by
  constructor
  · intro hsel
    unfold PointsList.delete_point
    rw [if_pos (by rw [hsel]; exact beq_self_eq_true _)]
  · intro hsel h0 hlt
    have hne : ¬ ((st.row_selected == NONESELECTED) = true) := by
      rw [beq_iff_eq]
      exact hsel
    have hti : i = ((i.toNat : Nat) : Int) := (Int.toNat_of_nonneg h0).symm
    have htlt : i.toNat < st.points.length := by omega
    have hloop := delete_loop_spec i.toNat st.points [] hnum htlt
    rw [List.append_nil, List.append_nil] at hloop
    have hlenT : (st.points.take i.toNat).length = i.toNat := by
      rw [List.length_take]
      exact Nat.min_eq_left (Nat.le_of_lt htlt)
    refine ⟨?_, ?_, ?_⟩
    · unfold PointsList.delete_point
      rw [if_neg hne]
      conv_lhs => rw [hti]
      rw [hloop]
      rfl
    · rw [List.length_append, hlenT, List.length_map, List.length_drop]
      omega
    · intro k p hp
      by_cases hk : k < i.toNat
      · rw [List.get?_append (by rw [hlenT]; exact hk), List.get?_take hk] at hp
        exact hnum k p hp
      · push_neg at hk
        rw [List.get?_append_right (by rw [hlenT]; exact hk), hlenT, List.get?_map] at hp
        cases hq : (st.points.drop (i.toNat + 1)).get? (k - i.toNat) with
        | none =>
          rw [hq] at hp
          cases hp
        | some q =>
          rw [hq] at hp
          rw [List.get?_drop] at hq
          have hqn : q.number = ((i.toNat + 1 + (k - i.toNat) : Nat) : Int) := hnum _ q hq
          cases hp
          show q.number - 1 = (k : Int)
          rw [hqn]
          push_cast
          omega

/-- C3 counterexample: the claim says `delete(index)` is also a no-op when
`index` is out of range.  On a single-point store whose row 0 is selected,
`delete_point 1` (out of range) finds no matching point, yet its reverse
traversal decrements the point's number to -1 and the final re-gridding
clears the selection — the store changes, so the call is not a no-op. -/
theorem C3_counterexample :
    PointsList.delete_point ⟨[⟨0, "a", "b"⟩], 1, 0⟩ 1
      = some ⟨[⟨-1, "a", "b"⟩], 1, -1⟩ ∧
    some (⟨[⟨-1, "a", "b"⟩], 1, -1⟩ : PointsList)
      ≠ some (⟨[⟨0, "a", "b"⟩], 1, 0⟩ : PointsList) := by
  exact ⟨by decide, by decide⟩

/-- C3 witness: deleting the selected in-range index 0 of a concrete
two-point store removes that point, renumbers the remaining point to 0,
and clears the selection. -/
theorem C3_delete_witness :
    PointsList.delete_point ⟨[⟨0, "a", "b"⟩, ⟨1, "c", "d"⟩], 2, 0⟩ 0
      = some ⟨[⟨0, "c", "d"⟩], 1, -1⟩ := by
  have h := (C3_delete_spec ⟨[⟨0, "a", "b"⟩, ⟨1, "c", "d"⟩], 2, 0⟩ 0
    (by
      intro k p hp
      match k, hp with
      | 0, hp => cases hp; rfl
      | 1, hp => cases hp; rfl
      | n + 2, hp => simp [List.get?] at hp)).2
    (by decide) (by decide) (by decide)
  simpa using h.1
